import Mathlib

/-!
Verification of the conveyancers-marketplace backend core.

The payments service (`backend/services/payments/main.cpp`) holds an
in-memory payment ledger (hold / release / refund / payout / checkout),
an invoice ledger, and a loyalty fee-rate engine.  The jobs service
(`backend/services/jobs/main.cpp`) holds the per-job contact policy
(masking, one-way unlock) and the compliance message detectors.

The C++ stores are `std::unordered_map`s guarded by a store-wide mutex;
every operation is a serialized read-modify-write, so each operation is
embedded as a pure function from store state to store state (plus its
returned value).  `std::optional` becomes `Option`; C++ `int` amounts
become `Int`; C++ `double` fee rates become `ℚ`; externally generated
inputs (random ids from `GenerateId`, timestamps from `NowIso8601` /
`CurrentIsoTimestamp`, HMAC tokens from `security::DeriveScopedToken`)
enter each operation as explicit parameters.
-/

namespace ConveyMarket

/-! ## Association-list maps

`std::unordered_map<std::string, T>` is embedded as an association list
with insert-or-replace update.  Iteration order is irrelevant to every
claim below.
-/

def mapFind {α : Type} : List (String × α) → String → Option α
  | [], _ => none
  | (k', v) :: rest, k => if k' = k then some v else mapFind rest k

def mapSet {α : Type} : List (String × α) → String → α → List (String × α)
  | [], k, v => [(k, v)]
  | (k', v') :: rest, k, v =>
      if k' = k then (k, v) :: rest else (k', v') :: mapSet rest k v

/-! ## Payment ledger data model (`payments/main.cpp`, lines 25-84) -/

inductive PaymentStatus where
  | held
  | released
  | refunded
  deriving DecidableEq, Repr

structure PaymentRecord where
  id : String
  job_id : String
  milestone_id : String
  currency : String
  amount_cents : Int
  reference : String
  conveyancer_account_id : String
  status : PaymentStatus
  released_at : Option String
  refunded_at : Option String
  deriving DecidableEq, Repr

structure TrustPayout where
  id : String
  payment_id : String
  account_name : String
  account_number : String
  bsb : String
  reference : String
  processed_at : String
  deriving DecidableEq, Repr

structure CheckoutReceipt where
  id : String
  payment_id : String
  job_id : String
  method : String
  currency : String
  reference : String
  hold_amount_cents : Int
  service_fee_cents : Int
  service_fee_rate : ℚ
  total_cents : Int
  processed_at : String
  invoice_id : String
  deriving DecidableEq, Repr

structure LedgerState where
  payments : List (String × PaymentRecord)
  trust_payouts : List (String × TrustPayout)
  checkouts : List (String × CheckoutReceipt)
  checkout_lookup : List (String × String)
  checkout_order : List String
  deriving DecidableEq, Repr

def emptyLedger : LedgerState := ⟨[], [], [], [], []⟩

/-- `std::llround` on a real value: round half away from zero.  Used for
`service_fee_cents = llround(amount_cents * service_fee_rate)`. -/
def roundHalfAway (q : ℚ) : Int :=
  if q < 0 then -⌊-q + 1 / 2⌋ else ⌊q + 1 / 2⌋

/-- `PaymentLedger::CreateHold` (lines 176-192).  The generated id
(`GenerateId("hold_")`) is the `freshId` parameter. -/
def createHold (st : LedgerState) (freshId job_id milestone_id currency : String)
    (amount_cents : Int) (reference conveyancer_account_id : String) :
    PaymentRecord × LedgerState :=
  let record : PaymentRecord :=
    { id := freshId, job_id := job_id, milestone_id := milestone_id,
      currency := currency, amount_cents := amount_cents, reference := reference,
      conveyancer_account_id := conveyancer_account_id,
      status := .held, released_at := none, refunded_at := none }
  (record, { st with payments := mapSet st.payments freshId record })

/-- `PaymentLedger::Release` (lines 202-216): fails with no change when
the id is unknown or the payment is refunded; otherwise stamps
`released_at` and clears `refunded_at`. -/
def release (st : LedgerState) (id released_at : String) :
    Option PaymentRecord × LedgerState :=
  match mapFind st.payments id with
  | none => (none, st)
  | some p =>
      if p.status = .refunded then (none, st)
      else
        let p' := { p with status := .released, released_at := some released_at,
                           refunded_at := none }
        (some p', { st with payments := mapSet st.payments id p' })

/-- `PaymentLedger::Refund` (lines 218-231): fails with no change when
the id is unknown or the payment is released; otherwise stamps
`refunded_at` and clears `released_at`. -/
def refund (st : LedgerState) (id refunded_at : String) :
    Option PaymentRecord × LedgerState :=
  match mapFind st.payments id with
  | none => (none, st)
  | some p =>
      if p.status = .released then (none, st)
      else
        let p' := { p with status := .refunded, refunded_at := some refunded_at,
                           released_at := none }
        (some p', { st with payments := mapSet st.payments id p' })

/-- `PaymentLedger::RecordPayout` (lines 233-254): requires an existing
payment in `Released` status; overwrites the single payout slot for the
payment id. -/
def recordPayout (st : LedgerState)
    (freshId payment_id account_name account_number bsb reference processed_at : String) :
    Option TrustPayout × LedgerState :=
  match mapFind st.payments payment_id with
  | none => (none, st)
  | some p =>
      if p.status ≠ .released then (none, st)
      else
        let payout : TrustPayout :=
          { id := freshId, payment_id := payment_id, account_name := account_name,
            account_number := account_number, bsb := bsb, reference := reference,
            processed_at := processed_at }
        (some payout, { st with trust_payouts := mapSet st.trust_payouts payment_id payout })

/-- `PaymentLedger::Checkout` (lines 273-307): requires an existing
payment in `Held` status; emits a receipt with
`fee = llround(amount * rate)` and `total = amount + fee`, and
transitions the payment to `Released` with `released_at = processed_at`
and `refunded_at` cleared. -/
def checkout (st : LedgerState) (freshId payment_id method : String)
    (service_fee_rate : ℚ) (processed_at : String) (invoice_id : Option String) :
    Option CheckoutReceipt × LedgerState :=
  match mapFind st.payments payment_id with
  | none => (none, st)
  | some p =>
      if p.status ≠ .held then (none, st)
      else
        let fee := roundHalfAway ((p.amount_cents : ℚ) * service_fee_rate)
        let receipt : CheckoutReceipt :=
          { id := freshId, payment_id := payment_id, job_id := p.job_id,
            method := method, currency := p.currency, reference := p.reference,
            hold_amount_cents := p.amount_cents, service_fee_cents := fee,
            service_fee_rate := service_fee_rate,
            total_cents := p.amount_cents + fee,
            processed_at := processed_at, invoice_id := invoice_id.getD "" }
        let p' := { p with status := .released, released_at := some processed_at,
                           refunded_at := none }
        (some receipt,
         { st with
             payments := mapSet st.payments payment_id p',
             checkouts := mapSet st.checkouts freshId receipt,
             checkout_lookup := mapSet st.checkout_lookup payment_id freshId,
             checkout_order := st.checkout_order ++ [freshId] })

/-- A mutating payment-ledger operation, with its externally generated
inputs (ids, timestamps) carried as data. -/
inductive LedgerOp where
  | createHold (freshId job_id milestone_id currency : String)
      (amount_cents : Int) (reference conveyancer_account_id : String)
  | release (id released_at : String)
  | refund (id refunded_at : String)
  | recordPayout (freshId payment_id account_name account_number bsb reference
      processed_at : String)
  | checkout (freshId payment_id method : String) (service_fee_rate : ℚ)
      (processed_at : String) (invoice_id : Option String)

/-- State effect of one ledger operation (the returned value dropped). -/
def applyLedgerOp (st : LedgerState) : LedgerOp → LedgerState
  | .createHold fid j m c a r cid => (createHold st fid j m c a r cid).2
  | .release id t => (release st id t).2
  | .refund id t => (refund st id t).2
  | .recordPayout fid pid an acn b r t => (recordPayout st fid pid an acn b r t).2
  | .checkout fid pid m rate t inv => (checkout st fid pid m rate t inv).2

/-- The per-record status/timestamp invariant of the spec:
`Refunded ⇒ refunded_at set ∧ released_at unset`, and symmetrically
for `Released`. -/
def PaymentOk (p : PaymentRecord) : Prop :=
  (p.status = .refunded → p.refunded_at.isSome ∧ p.released_at = none) ∧
  (p.status = .released → p.released_at.isSome ∧ p.refunded_at = none)

def LedgerInv (st : LedgerState) : Prop :=
  ∀ e ∈ st.payments, PaymentOk e.2

/-! ## Invoice ledger (`payments/main.cpp`, lines 52-69 and 354-421) -/

inductive InvoiceStatus where
  | draft
  | issued
  | paid
  | voided
  deriving DecidableEq, Repr

structure InvoiceLine where
  description : String
  amount_cents : Int
  tax_rate : ℚ
  deriving DecidableEq, Repr

structure InvoiceRecord where
  id : String
  job_id : String
  recipient : String
  status : InvoiceStatus
  lines : List InvoiceLine
  subtotal_cents : Int
  tax_cents : Int
  total_cents : Int
  issued_at : String
  due_at : String
  deriving DecidableEq, Repr

structure InvoiceState where
  invoices : List (String × InvoiceRecord)
  deriving DecidableEq, Repr

/-- `static_cast<int>` applied to a nonnegative-or-negative real value:
truncation toward zero.  For a rational in lowest terms this is the
`Int.tdiv` of numerator by denominator. -/
def truncToZero (q : ℚ) : Int := q.num.tdiv (q.den : Int)

/-- `InvoiceLedger::Recalculate` (lines 407-417): one pass accumulating
`subtotal += amount_cents` and `tax += static_cast<int>(amount_cents * tax_rate)`,
then `total = subtotal + tax`. -/
def recalculate (invoice : InvoiceRecord) : InvoiceRecord :=
  let subtotal := invoice.lines.foldl (fun acc l => acc + l.amount_cents) 0
  let tax := invoice.lines.foldl
    (fun acc l => acc + truncToZero ((l.amount_cents : ℚ) * l.tax_rate)) 0
  { invoice with subtotal_cents := subtotal, tax_cents := tax,
                 total_cents := subtotal + tax }

/-- `InvoiceLedger::CreateInvoice` (lines 356-371). -/
def createInvoice (st : InvoiceState) (freshId job_id recipient issued_at due_at : String)
    (lines : List InvoiceLine) : InvoiceRecord × InvoiceState :=
  let invoice := recalculate
    { id := freshId, job_id := job_id, recipient := recipient, status := .draft,
      lines := lines, subtotal_cents := 0, tax_cents := 0, total_cents := 0,
      issued_at := issued_at, due_at := due_at }
  (invoice, { invoices := mapSet st.invoices freshId invoice })

/-- `InvoiceLedger::UpdateStatus` (lines 390-398). -/
def updateInvoiceStatus (st : InvoiceState) (id : String) (status : InvoiceStatus) :
    Option InvoiceRecord × InvoiceState :=
  match mapFind st.invoices id with
  | none => (none, st)
  | some inv =>
      let inv' := { inv with status := status }
      (some inv', { invoices := mapSet st.invoices id inv' })

/-! ## Loyalty engine (`payments/main.cpp`, lines 433-522) -/

structure LoyaltyTier where
  threshold : Int
  rate : ℚ
  name : String
  badge : String
  deriving DecidableEq, Repr

def tierLaunch : LoyaltyTier := ⟨0, 18 / 1000, "Launch", "ConveySafe Launch"⟩

def tierTrusted : LoyaltyTier := ⟨3, 15 / 1000, "Trusted Partner", "ConveySafe Trusted"⟩

def tierPreferred : LoyaltyTier := ⟨8, 12 / 1000, "Preferred Partner", "ConveySafe Preferred"⟩

/-- The fixed tier table built by the `LoyaltyEngine` constructor
(lines 442-446). -/
def loyaltyTiers : List LoyaltyTier := [tierLaunch, tierTrusted, tierPreferred]

/-- `LoyaltyEngine::ResolveTierForCount` (lines 501-509): start from
`tiers_.front()` and take the last tier whose threshold is ≤ count. -/
def resolveTierForCount (count : Int) : LoyaltyTier :=
  loyaltyTiers.foldl (fun result tier => if tier.threshold ≤ count then tier else result)
    tierLaunch

structure LoyaltyState where
  completion_counts : List (String × Int)
  completed_jobs : List (String × List String)
  deriving DecidableEq, Repr

def emptyLoyalty : LoyaltyState := ⟨[], []⟩

/-- `LoyaltyEngine::CompletedCountUnlocked` (lines 511-516). -/
def completedCount (st : LoyaltyState) (conveyancer_id : String) : Int :=
  (mapFind st.completion_counts conveyancer_id).getD 0

/-- `LoyaltyEngine::ResolveRate` (lines 448-455). -/
def resolveRate (st : LoyaltyState) (conveyancer_id : String) : ℚ :=
  if conveyancer_id = "" then tierLaunch.rate
  else (resolveTierForCount (completedCount st conveyancer_id)).rate

/-- `LoyaltyEngine::RecordCheckout` (lines 457-466): insert `job_id`
into the conveyancer's completed-job set (`std::unordered_set`); only a
successful insert updates the cached count. -/
def recordCheckout (st : LoyaltyState) (conveyancer_id job_id : String) : LoyaltyState :=
  if conveyancer_id = "" then st
  else
    let jobs := (mapFind st.completed_jobs conveyancer_id).getD []
    if job_id ∈ jobs then st
    else
      let jobs' := job_id :: jobs
      { completed_jobs := mapSet st.completed_jobs conveyancer_id jobs',
        completion_counts := mapSet st.completion_counts conveyancer_id (jobs'.length : Int) }

/-! ## Jobs service: character classes and detectors
(`jobs/main.cpp`, lines 35-96)

The three `std::regex` patterns (ECMAScript grammar, `icase`) are
embedded as executable scanners over `List Char`.  `regex_search`
reports whether any substring matches, so each scanner decides
existence of a match. -/

/-- ASCII letter (the `[A-Z]` class under `icase`). -/
def isAlphaCh (c : Char) : Bool :=
  ('A' ≤ c && c ≤ 'Z') || ('a' ≤ c && c ≤ 'z')

/-- ECMAScript `\s` over `char` strings: space, tab, newline, vertical
tab, form feed, carriage return. -/
def isSpaceCh (c : Char) : Bool :=
  c = ' ' || c = '\t' || c = '\n' || c = Char.ofNat 11 || c = Char.ofNat 12 || c = '\r'

/-- The email local-part class `[A-Z0-9._%+-]` under `icase`. -/
def isLocalCh (c : Char) : Bool :=
  isAlphaCh c || c.isDigit || c = '.' || c = '_' || c = '%' || c = '+' || c = '-'

/-- The email domain class `[A-Z0-9.-]` under `icase`. -/
def isDomainCh (c : Char) : Bool :=
  isAlphaCh c || c.isDigit || c = '.' || c = '-'

/-- The phone-tail class `[0-9\s-]`. -/
def isPhoneTailCh (c : Char) : Bool :=
  c.isDigit || isSpaceCh c || c = '-'

/-- A literal `.` followed by at least two letters starts here
(the `\.[A-Z]{2,}` tail of `kEmailPattern`). -/
def dotThenTwoAlpha : List Char → Bool
  | c :: a :: b :: _ => c = '.' && isAlphaCh a && isAlphaCh b
  | _ => false

/-- After at least one domain character: either the `\.[A-Z]{2,}` tail
starts here, or consume one more domain character. -/
def domainTail : List Char → Bool
  | [] => false
  | c :: rest => dotThenTwoAlpha (c :: rest) || (isDomainCh c && domainTail rest)

/-- `[A-Z0-9.-]+\.[A-Z]{2,}` matches a prefix of the input here. -/
def domainHere : List Char → Bool
  | [] => false
  | c :: rest => isDomainCh c && domainTail rest

/-- Scan for `kEmailPattern`: an `@` preceded by a local-part character
and followed by a domain match.  `prev` is the previous character. -/
def emailScan : Option Char → List Char → Bool
  | _, [] => false
  | prev, c :: rest =>
      (c = '@' &&
        (match prev with
         | some p => isLocalCh p
         | none => false) &&
        domainHere rest) ||
      emailScan (some c) rest

def containsEmail (text : String) : Bool := emailScan none text.data

/-- `n` consecutive characters of `[0-9\s-]` start here. -/
def hasPhoneTail : Nat → List Char → Bool
  | 0, _ => true
  | _ + 1, [] => false
  | n + 1, c :: rest => isPhoneTailCh c && hasPhoneTail n rest

/-- `kPhonePattern` = `(\+?61|0)[0-9\s-]{8,}` matches a prefix of the
input here. -/
def phoneAt (cs : List Char) : Bool :=
  (match cs with
   | '+' :: '6' :: '1' :: rest => hasPhoneTail 8 rest
   | _ => false) ||
  (match cs with
   | '6' :: '1' :: rest => hasPhoneTail 8 rest
   | _ => false) ||
  (match cs with
   | '0' :: rest => hasPhoneTail 8 rest
   | _ => false)

def phoneScan : List Char → Bool
  | [] => false
  | c :: rest => phoneAt (c :: rest) || phoneScan rest

def containsPhone (text : String) : Bool := phoneScan text.data

/-- `ContainsContactCoordinates` (lines 90-92). -/
def containsContactCoordinates (text : String) : Bool :=
  containsEmail text || containsPhone text

/-- ASCII lower-casing, as `icase` folds `[A-Za-z]`. -/
def toLowerCh (c : Char) : Char :=
  if 'A' ≤ c && c ≤ 'Z' then Char.ofNat (c.toNat + 32) else c

/-- Match a fixed lower-case word case-insensitively at the head,
returning the rest of the input on success. -/
def matchCI : List Char → List Char → Option (List Char)
  | [], cs => some cs
  | _ :: _, [] => none
  | p :: ps, c :: cs => if toLowerCh c = p then matchCI ps cs else none

def matchMe (cs : List Char) : Bool := (matchCI ['m', 'e'] cs).isSome

/-- `\s+me` matches a prefix of the input here. -/
def spacesThenMe : List Char → Bool
  | [] => false
  | c :: rest => isSpaceCh c && (matchMe rest || spacesThenMe rest)

/-- `\s?link` matches a prefix of the input here. -/
def linkAfterOptSpace (cs : List Char) : Bool :=
  (matchCI ['l', 'i', 'n', 'k'] cs).isSome ||
  (match cs with
   | c :: rest => isSpaceCh c && (matchCI ['l', 'i', 'n', 'k'] rest).isSome
   | [] => false)

/-- One alternative of `kOffPlatformPattern` =
`(whatsapp|signal|telegram|zoom|meet\s?link|call\s+me|email\s+me)`
matches a prefix of the input here. -/
def offPlatformAt (cs : List Char) : Bool :=
  (matchCI ['w', 'h', 'a', 't', 's', 'a', 'p', 'p'] cs).isSome ||
  (matchCI ['s', 'i', 'g', 'n', 'a', 'l'] cs).isSome ||
  (matchCI ['t', 'e', 'l', 'e', 'g', 'r', 'a', 'm'] cs).isSome ||
  (matchCI ['z', 'o', 'o', 'm'] cs).isSome ||
  (match matchCI ['m', 'e', 'e', 't'] cs with
   | some rest => linkAfterOptSpace rest
   | none => false) ||
  (match matchCI ['c', 'a', 'l', 'l'] cs with
   | some rest => spacesThenMe rest
   | none => false) ||
  (match matchCI ['e', 'm', 'a', 'i', 'l'] cs with
   | some rest => spacesThenMe rest
   | none => false)

def offPlatformScan : List Char → Bool
  | [] => false
  | c :: rest => offPlatformAt (c :: rest) || offPlatformScan rest

/-- `ContainsOffPlatformHint` (lines 94-96). -/
def containsOffPlatformHint (text : String) : Bool := offPlatformScan text.data

/-! ## Masking (`jobs/main.cpp`, lines 54-88) -/

/-- `MaskPhone` (lines 68-88): empty in, empty out; fewer than four
digits give the fixed `"••••"`; otherwise one bullet per digit except
the last three, then the last three digits. -/
def maskPhone (value : String) : String :=
  if value = "" then value
  else
    let digits := value.data.filter Char.isDigit
    if digits.length < 4 then "••••"
    else String.mk (List.replicate (digits.length - 3) '•' ++ digits.drop (digits.length - 3))

/-- Rightmost `.`-split of the domain run for `MaskEmail`'s capture:
the ECMAScript `+` backtracks from the longest consumption, so the
captured domain keeps everything up to the last dot that is followed by
at least two letters, then the maximal letter run after that dot. -/
def domainSplit : List Char → Option (List Char)
  | [] => none
  | c :: rest =>
      match domainSplit rest with
      | some tail => some (c :: tail)
      | none =>
          if c = '.' then
            let letters := rest.takeWhile isAlphaCh
            if 2 ≤ letters.length then some ('.' :: letters) else none
          else none

/-- The domain capture of `kEmailPattern` starting here: at least one
domain character before the chosen dot. -/
def domainExtract (cs : List Char) : Option (List Char) :=
  match cs.takeWhile isDomainCh with
  | [] => none
  | r0 :: rrest =>
      match domainSplit rrest with
      | some tail => some (r0 :: tail)
      | none => none

/-- Leftmost `kEmailPattern` match for `MaskEmail`: a match can only
start where a maximal local-part run starts (`prevLocal` tracks whether
the previous character was local), its local capture is that whole run,
and the character after the run must be `@`. -/
def scanEmail : Bool → List Char → Option (List Char × List Char)
  | _, [] => none
  | prevLocal, c :: rest =>
      if !prevLocal && isLocalCh c then
        match (c :: rest).dropWhile isLocalCh with
        | '@' :: dom =>
            match domainExtract dom with
            | some d => some ((c :: rest).takeWhile isLocalCh, d)
            | none => scanEmail (isLocalCh c) rest
        | _ => scanEmail (isLocalCh c) rest
      else scanEmail (isLocalCh c) rest

/-- `MaskEmail` (lines 54-66): keep at most two leading local-part
characters plus the domain of the first match; `"••••"` when nothing
matches. -/
def maskEmail (value : String) : String :=
  if value = "" then value
  else
    match scanEmail false value.data with
    | none => "••••"
    | some (loc, dom) => String.mk (loc.take 2 ++ ('•' :: '•' :: '•' :: '@' :: dom))

/-! ## Jobs service: data model (`jobs/main.cpp`, lines 143-350) -/

structure ContactPolicy where
  unlocked : Bool
  unlocked_at : Option String
  unlocked_by_role : String
  buyer_email : String
  buyer_phone : String
  seller_email : String
  seller_phone : String
  conveyancer_email : String
  conveyancer_phone : String
  buyer_email_masked : String
  buyer_phone_masked : String
  seller_email_masked : String
  seller_phone_masked : String
  conveyancer_email_masked : String
  conveyancer_phone_masked : String
  deriving DecidableEq, Repr

/-- `GenerateContactPolicy` (lines 161-184).  `s.substr(min(s.size(), 4))`
drops the first four characters (or everything, for shorter strings),
which is `String.drop s 4`. -/
def generateContactPolicy (job_id conveyancer_id buyer_email_override
    buyer_phone_override seller_email_override seller_phone_override : String) :
    ContactPolicy :=
  let buyer_email := if buyer_email_override = "" then
    "buyer-" ++ job_id ++ "@clients.conveysafe" else buyer_email_override
  let buyer_phone := if buyer_phone_override = "" then
    "+611300" ++ job_id.drop 4 else buyer_phone_override
  let seller_email := if seller_email_override = "" then
    "seller-" ++ job_id ++ "@clients.conveysafe" else seller_email_override
  let seller_phone := if seller_phone_override = "" then
    "+611300" ++ job_id.drop 4 else seller_phone_override
  let conveyancer_email := conveyancer_id ++ "@pro.conveysafe"
  let conveyancer_phone := "+612800" ++ conveyancer_id.drop 4
  { unlocked := false, unlocked_at := none, unlocked_by_role := "",
    buyer_email := buyer_email, buyer_phone := buyer_phone,
    seller_email := seller_email, seller_phone := seller_phone,
    conveyancer_email := conveyancer_email, conveyancer_phone := conveyancer_phone,
    buyer_email_masked := maskEmail buyer_email,
    buyer_phone_masked := maskPhone buyer_phone,
    seller_email_masked := maskEmail seller_email,
    seller_phone_masked := maskPhone seller_phone,
    conveyancer_email_masked := maskEmail conveyancer_email,
    conveyancer_phone_masked := maskPhone conveyancer_phone }

structure Milestone where
  id : String
  title : String
  status : String
  due_date : String
  escrow_funded : Bool
  assigned_to : String
  updated_at : String
  deriving DecidableEq, Repr

structure Message where
  id : String
  sender : String
  body : String
  sent_at : String
  deriving DecidableEq, Repr

structure Document where
  id : String
  name : String
  status : String
  signed_url : String
  requires_signature : Bool
  scanned : Bool
  is_signed : Bool
  deriving DecidableEq, Repr

structure Dispute where
  id : String
  type : String
  description : String
  status : String
  created_at : String
  evidence_urls : List String
  deriving DecidableEq, Repr

structure CallSession where
  id : String
  type : String
  status : String
  created_at : String
  created_by : String
  participants : List String
  join_url : String
  access_token : String
  deriving DecidableEq, Repr

structure CompletionCertificate where
  id : String
  job_id : String
  summary : String
  issued_at : String
  issued_by : String
  download_url : String
  verification_code : String
  verified : Bool
  deriving DecidableEq, Repr

structure TemplateTask where
  id : String
  title : String
  default_assignee : String
  due_in_days : Int
  escrow_required : Bool
  deriving DecidableEq, Repr

structure Job where
  id : String
  title : String
  state : String
  status : String
  conveyancer_id : String
  buyer_name : String
  seller_name : String
  escrow_enabled : Bool
  opened_at : String
  completed_at : Option String
  milestones : List Milestone
  messages : List Message
  documents : List Document
  disputes : List Dispute
  risk_level : String
  compliance_notes : String
  contact_policy : ContactPolicy
  calls : List CallSession
  compliance_flags : List String
  certificate : Option CompletionCertificate
  buyer_ip : String
  seller_ip : String
  quote_issued_at : String
  last_activity_at : String
  deriving DecidableEq, Repr

structure JobStore where
  jobs : List (String × Job)
  deriving DecidableEq, Repr

/-! ## Jobs service: store operations (`jobs/main.cpp`, lines 383-663)

Each operation acquires the store mutex for its whole read-modify-write,
so it is embedded as a pure state transformer.  Externally produced
inputs — `GenerateId` results, `NowIso8601` timestamps,
`security::DeriveScopedToken` values, and the `AddDaysToDate` results
(computed by the C time library) — are explicit parameters. -/

/-- `JobStore::Create` (lines 383-407). -/
def createJob (st : JobStore) (freshId title state conveyancer_id buyer_name
    seller_name : String) (escrow_enabled : Bool) (milestones : List Milestone)
    (now : String) : Job × JobStore :=
  let job : Job :=
    { id := freshId, title := title, state := state, status := "in_progress",
      conveyancer_id := conveyancer_id, buyer_name := buyer_name,
      seller_name := seller_name, escrow_enabled := escrow_enabled,
      opened_at := now, completed_at := none, milestones := milestones,
      messages := [], documents := [], disputes := [], risk_level := "low",
      compliance_notes := "Escrow monitoring enabled",
      contact_policy := generateContactPolicy freshId conveyancer_id "" "" "" "",
      calls := [], compliance_flags := [], certificate := none,
      buyer_ip := "203.0.113." ++ toString (st.jobs.length % 30 + 10),
      seller_ip := "198.51.100." ++ toString (st.jobs.length % 40 + 5),
      quote_issued_at := now, last_activity_at := now }
  (job, { jobs := mapSet st.jobs freshId job })

/-- `JobStore::AddMilestone` (lines 409-428). -/
def addMilestone (st : JobStore) (job_id freshId title due_date assigned_to now : String) :
    Option Milestone × JobStore :=
  match mapFind st.jobs job_id with
  | none => (none, st)
  | some job =>
      let milestone : Milestone :=
        { id := freshId, title := title, status := "pending", due_date := due_date,
          escrow_funded := false, assigned_to := assigned_to, updated_at := now }
      let job' := { job with
        milestones := job.milestones ++ [milestone],
        status := "in_progress", last_activity_at := now }
      (some milestone, { jobs := mapSet st.jobs job_id job' })

/-- Update the first milestone with the given id (the loop body of
`JobStore::UpdateMilestone`); `none` when no milestone matches. -/
def updateMilestoneList (milestone_id status : String) (due_date : Option String)
    (escrow_funded : Bool) (now : String) : List Milestone → Option (List Milestone)
  | [] => none
  | m :: rest =>
      if m.id = milestone_id then
        some ({ m with status := status,
                       due_date := due_date.getD m.due_date,
                       escrow_funded := escrow_funded, updated_at := now } :: rest)
      else
        match updateMilestoneList milestone_id status due_date escrow_funded now rest with
        | none => none
        | some rest' => some (m :: rest')

/-- `JobStore::UpdateMilestone` (lines 430-451). -/
def updateMilestone (st : JobStore) (job_id milestone_id status : String)
    (due_date : Option String) (escrow_funded : Bool) (now : String) :
    Bool × JobStore :=
  match mapFind st.jobs job_id with
  | none => (false, st)
  | some job =>
      match updateMilestoneList milestone_id status due_date escrow_funded now
          job.milestones with
      | none => (false, st)
      | some ms =>
          let job' := { job with milestones := ms, last_activity_at := now }
          (true, { jobs := mapSet st.jobs job_id job' })

/-- `JobStore::AddMessage` (lines 453-474): appends the message, then
runs the two independent detectors; the contact-coordinate flag is
gated on the contact policy not being unlocked, the off-platform flag
is unconditional. -/
def addMessage (st : JobStore) (job_id sender body freshId now : String) :
    Option Message × JobStore :=
  match mapFind st.jobs job_id with
  | none => (none, st)
  | some job =>
      let message : Message := { id := freshId, sender := sender, body := body,
                                 sent_at := now }
      let flags1 :=
        if containsContactCoordinates body && !job.contact_policy.unlocked then
          job.compliance_flags ++ ["contact_coordinates:" ++ message.id]
        else job.compliance_flags
      let flags2 :=
        if containsOffPlatformHint body then
          flags1 ++ ["off_platform_hint:" ++ message.id]
        else flags1
      let job' := { job with
        messages := job.messages ++ [message],
        last_activity_at := now, compliance_flags := flags2 }
      (some message, { jobs := mapSet st.jobs job_id job' })

/-- `JobStore::AddDocument` (lines 476-494). -/
def addDocument (st : JobStore) (job_id freshId name : String)
    (requires_signature : Bool) (content_type now : String) :
    Option Document × JobStore :=
  match mapFind st.jobs job_id with
  | none => (none, st)
  | some job =>
      let document : Document :=
        { id := freshId, name := name, status := "processing",
          signed_url := "https://files.example.com/" ++ job_id ++ "/" ++ freshId
            ++ "?ct=" ++ content_type,
          requires_signature := requires_signature, scanned := true,
          is_signed := false }
      let job' := { job with
        documents := job.documents ++ [document],
        last_activity_at := now }
      (some document, { jobs := mapSet st.jobs job_id job' })

/-- The loop body of `JobStore::MarkDocumentSigned`: update the first
document with the given id; `none` when no document matches. -/
def markSignedList (document_id : String) (signed_flag : Bool) :
    List Document → Option (List Document)
  | [] => none
  | d :: rest =>
      if d.id = document_id then
        some ((if d.requires_signature then
                 { d with is_signed := signed_flag,
                          status := if signed_flag then "signed"
                                    else "awaiting_signature" }
               else d) :: rest)
      else
        match markSignedList document_id signed_flag rest with
        | none => none
        | some rest' => some (d :: rest')

/-- `JobStore::MarkDocumentSigned` (lines 496-514). -/
def markDocumentSigned (st : JobStore) (job_id document_id : String)
    (signed_flag : Bool) (now : String) : Bool × JobStore :=
  match mapFind st.jobs job_id with
  | none => (false, st)
  | some job =>
      match markSignedList document_id signed_flag job.documents with
      | none => (false, st)
      | some docs =>
          let job' := { job with documents := docs, last_activity_at := now }
          (true, { jobs := mapSet st.jobs job_id job' })

/-- `JobStore::CreateDispute` (lines 516-534). -/
def createDispute (st : JobStore) (job_id freshId type description now : String) :
    Option Dispute × JobStore :=
  match mapFind st.jobs job_id with
  | none => (none, st)
  | some job =>
      let dispute : Dispute :=
        { id := freshId, type := type, description := description,
          status := "open", created_at := now, evidence_urls := [] }
      let job' := { job with
        disputes := job.disputes ++ [dispute],
        risk_level := "medium",
        compliance_notes := "Dispute opened; monitoring required",
        last_activity_at := now }
      (some dispute, { jobs := mapSet st.jobs job_id job' })

/-- The loop body of `JobStore::UpdateDisputeStatus`: update the first
dispute with the given id; `none` when no dispute matches. -/
def updateDisputeList (dispute_id status : String) (evidence : List String) :
    List Dispute → Option (List Dispute)
  | [] => none
  | d :: rest =>
      if d.id = dispute_id then
        some ({ d with status := status,
                       evidence_urls := d.evidence_urls ++ evidence } :: rest)
      else
        match updateDisputeList dispute_id status evidence rest with
        | none => none
        | some rest' => some (d :: rest')

/-- `JobStore::UpdateDisputeStatus` (lines 536-556). -/
def updateDisputeStatus (st : JobStore) (job_id dispute_id status : String)
    (evidence : List String) (now : String) : Bool × JobStore :=
  match mapFind st.jobs job_id with
  | none => (false, st)
  | some job =>
      match updateDisputeList dispute_id status evidence job.disputes with
      | none => (false, st)
      | some ds =>
          let job' := { job with
            disputes := ds,
            risk_level := if status = "resolved" then "low" else job.risk_level,
            compliance_notes := if status = "resolved" then "Dispute resolved"
              else job.compliance_notes,
            last_activity_at := now }
          (true, { jobs := mapSet st.jobs job_id job' })

/-- `JobStore::CompleteJob` (lines 558-580).  The certificate's
verification code comes from `security::DeriveScopedToken`, an external
collaborator, and enters as the `token` parameter. -/
def completeJob (st : JobStore) (job_id summary certId token now : String) :
    Bool × JobStore :=
  match mapFind st.jobs job_id with
  | none => (false, st)
  | some job =>
      let certificate : CompletionCertificate :=
        { id := certId, job_id := job_id, summary := summary, issued_at := now,
          issued_by := "ConveySafe automation",
          download_url := "https://certs.conveysafe.example/" ++ job_id ++ "/"
            ++ certId ++ ".pdf",
          verification_code := token, verified := true }
      let job' := { job with
        status := "completed", completed_at := some now,
        compliance_notes := summary, last_activity_at := now,
        certificate := some certificate }
      (true, { jobs := mapSet st.jobs job_id job' })

/-- `JobStore::UnlockContact` (lines 582-595): returns `true` for any
existing job; only a job whose policy is still locked is changed. -/
def unlockContact (st : JobStore) (job_id actor_role now : String) :
    Bool × JobStore :=
  match mapFind st.jobs job_id with
  | none => (false, st)
  | some job =>
      if job.contact_policy.unlocked then (true, st)
      else
        let policy' := { job.contact_policy with
          unlocked := true, unlocked_by_role := actor_role,
          unlocked_at := some now }
        let job' := { job with
          contact_policy := policy',
          compliance_notes := "Contact released post-payment verification" }
        (true, { jobs := mapSet st.jobs job_id job' })

/-- `JobStore::CreateCallSession` (lines 605-625).  The access token
comes from `security::DeriveScopedToken` and enters as a parameter. -/
def createCallSession (st : JobStore) (job_id freshId type created_by : String)
    (participants : List String) (token now : String) :
    Option CallSession × JobStore :=
  match mapFind st.jobs job_id with
  | none => (none, st)
  | some job =>
      let session : CallSession :=
        { id := freshId, type := type, status := "scheduled", created_at := now,
          created_by := created_by, participants := participants,
          join_url := "https://calls.conveysafe.example/join/" ++ freshId,
          access_token := token }
      let job' := { job with
        calls := job.calls ++ [session],
        last_activity_at := now }
      (some session, { jobs := mapSet st.jobs job_id job' })

/-- `JobStore::ApplyTemplate` (lines 643-663).  Each task arrives with
its generated milestone id and its `AddDaysToDate(start_date, due_in_days)`
result (the latter is computed by the C time library). -/
def applyTemplate (st : JobStore) (job_id : String)
    (tasks : List (TemplateTask × String × String)) (now : String) :
    Bool × JobStore :=
  match mapFind st.jobs job_id with
  | none => (false, st)
  | some job =>
      let new_milestones := tasks.map (fun t =>
        ({ id := t.2.1, title := t.1.title, status := "pending",
           due_date := t.2.2, escrow_funded := t.1.escrow_required,
           assigned_to := if t.1.default_assignee = "" then job.conveyancer_id
                          else t.1.default_assignee,
           updated_at := now } : Milestone))
      let job' := { job with
        milestones := job.milestones ++ new_milestones,
        last_activity_at := now }
      (true, { jobs := mapSet st.jobs job_id job' })

/-- A mutating job-store operation, with externally generated inputs as
data. -/
inductive JobOp where
  | create (freshId title state conveyancer_id buyer_name seller_name : String)
      (escrow_enabled : Bool) (milestones : List Milestone) (now : String)
  | addMilestone (job_id freshId title due_date assigned_to now : String)
  | updateMilestone (job_id milestone_id status : String) (due_date : Option String)
      (escrow_funded : Bool) (now : String)
  | addMessage (job_id sender body freshId now : String)
  | addDocument (job_id freshId name : String) (requires_signature : Bool)
      (content_type now : String)
  | markDocumentSigned (job_id document_id : String) (signed_flag : Bool) (now : String)
  | createDispute (job_id freshId type description now : String)
  | updateDisputeStatus (job_id dispute_id status : String) (evidence : List String)
      (now : String)
  | completeJob (job_id summary certId token now : String)
  | unlockContact (job_id actor_role now : String)
  | createCallSession (job_id freshId type created_by : String)
      (participants : List String) (token now : String)
  | applyTemplate (job_id : String) (tasks : List (TemplateTask × String × String))
      (now : String)

/-- State effect of one job-store operation. -/
def applyJobOp (st : JobStore) : JobOp → JobStore
  | .create fid t s cid bn sn esc ms now => (createJob st fid t s cid bn sn esc ms now).2
  | .addMilestone jid fid t d a now => (addMilestone st jid fid t d a now).2
  | .updateMilestone jid mid s d esc now => (updateMilestone st jid mid s d esc now).2
  | .addMessage jid s b fid now => (addMessage st jid s b fid now).2
  | .addDocument jid fid n rs ct now => (addDocument st jid fid n rs ct now).2
  | .markDocumentSigned jid did sf now => (markDocumentSigned st jid did sf now).2
  | .createDispute jid fid t d now => (createDispute st jid fid t d now).2
  | .updateDisputeStatus jid did s e now => (updateDisputeStatus st jid did s e now).2
  | .completeJob jid s cid tok now => (completeJob st jid s cid tok now).2
  | .unlockContact jid r now => (unlockContact st jid r now).2
  | .createCallSession jid fid t cb p tok now =>
      (createCallSession st jid fid t cb p tok now).2
  | .applyTemplate jid ts now => (applyTemplate st jid ts now).2

/-- The spec's id-generator contract (collision-free within the process
lifetime): a `create` uses an id not already in the store. -/
def FreshCreate (st : JobStore) : JobOp → Prop
  | .create fid _ _ _ _ _ _ _ _ => mapFind st.jobs fid = none
  | _ => True

/-! ## HTTP-handler error selection (`payments/main.cpp`, lines 813-942)

The payments endpoints translate ledger results into HTTP outcomes:
the release / refund / payout handlers map a `nullopt` ledger result to
a single 409 error whatever its cause, while the checkout handler looks
the payment up first and distinguishes 404 from 409.  Each embedding
covers the outcome selection after body parsing/validation. -/

/-- `POST /payments/hold/:id/release` (lines 813-839), after a valid
body: `(status, error, state)`. -/
def releaseHandler (st : LedgerState) (pid released_at : String) :
    Nat × Option String × LedgerState :=
  match release st pid released_at with
  | (some _, st') => (200, none, st')
  | (none, st') => (409, some "invalid_transition", st')

/-- `POST /payments/hold/:id/refund` (lines 841-864), after a valid
body. -/
def refundHandler (st : LedgerState) (pid refunded_at : String) :
    Nat × Option String × LedgerState :=
  match refund st pid refunded_at with
  | (some _, st') => (200, none, st')
  | (none, st') => (409, some "invalid_transition", st')

/-- `POST /payments/hold/:id/payout` (lines 866-895), after a valid
body. -/
def payoutHandler (st : LedgerState)
    (freshId pid account_name account_number bsb reference processed_at : String) :
    Nat × Option String × LedgerState :=
  match recordPayout st freshId pid account_name account_number bsb reference
      processed_at with
  | (some _, st') => (200, none, st')
  | (none, st') => (409, some "payout_not_available", st')

/-- The `POST /payments/checkout` handler's lookup and status check
(lines 934-942): unknown payment gives `404 payment_not_found`, a
payment that exists but is not `Held` gives `409 hold_not_available`. -/
def checkoutPrecheck (st : LedgerState) (pid : String) : Nat × Option String :=
  match mapFind st.payments pid with
  | none => (404, some "payment_not_found")
  | some p => if p.status ≠ .held then (409, some "hold_not_available") else (201, none)

/-- Claim C4's reading for `Release`: the operation's result
distinguishes an unknown payment id from a status-guard violation on an
existing payment. -/
def ReleaseResultDistinguishes : Prop :=
  ∀ st1 st2 : LedgerState, ∀ pid t1 t2 : String, ∀ p : PaymentRecord,
    mapFind st1.payments pid = none →
    mapFind st2.payments pid = some p →
    p.status = .refunded →
    (release st1 pid t1).1 ≠ (release st2 pid t2).1

/-! ## Claim C10's statement of `MaskPhone`, and its repair -/

/-- Claim C10 as stated, as a reference function: empty for empty
input, the fixed `"••••"` when the input contains between one and three
digits, and otherwise one bullet per digit except the last three
followed by the last three digits. -/
def maskPhoneClaimed (value : String) : String :=
  if value = "" then ""
  else
    let digits := value.data.filter Char.isDigit
    if 1 ≤ digits.length ∧ digits.length ≤ 3 then "••••"
    else String.mk (List.replicate (digits.length - 3) '•' ++ digits.drop (digits.length - 3))

/-- The amended description: `"••••"` for every non-empty input with at
most three digits (including zero digits); bullets plus the last three
digits once there are at least four. -/
def maskPhoneAmended (value : String) : String :=
  if value = "" then ""
  else
    let digits := value.data.filter Char.isDigit
    if digits.length ≤ 3 then "••••"
    else String.mk (List.replicate (digits.length - 3) '•' ++ digits.drop (digits.length - 3))

/-- A one-field payment record for concrete instantiations. -/
def samplePayment (pid : String) (status : PaymentStatus)
    (released_at refunded_at : Option String) : PaymentRecord :=
  { id := pid, job_id := "j", milestone_id := "m", currency := "AUD",
    amount_cents := 100, reference := "r", conveyancer_account_id := "",
    status := status, released_at := released_at, refunded_at := refunded_at }

/-- A ledger holding exactly one payment. -/
def ledgerWith (pid : String) (p : PaymentRecord) : LedgerState :=
  { emptyLedger with payments := [(pid, p)] }

/-- A fully locked contact policy with blank contact data, for
concrete instantiations. -/
def lockedPolicy : ContactPolicy :=
  { unlocked := false, unlocked_at := none, unlocked_by_role := "",
    buyer_email := "", buyer_phone := "", seller_email := "", seller_phone := "",
    conveyancer_email := "", conveyancer_phone := "", buyer_email_masked := "",
    buyer_phone_masked := "", seller_email_masked := "", seller_phone_masked := "",
    conveyancer_email_masked := "", conveyancer_phone_masked := "" }

/-- A job with the given contact policy and no history, for concrete
instantiations. -/
def sampleJob (jid : String) (policy : ContactPolicy) : Job :=
  { id := jid, title := "t", state := "NSW", status := "in_progress",
    conveyancer_id := "c1", buyer_name := "b", seller_name := "s",
    escrow_enabled := true, opened_at := "t0", completed_at := none,
    milestones := [], messages := [], documents := [], disputes := [],
    risk_level := "low", compliance_notes := "", contact_policy := policy,
    calls := [], compliance_flags := [], certificate := none,
    buyer_ip := "203.0.113.10", seller_ip := "198.51.100.5",
    quote_issued_at := "t0", last_activity_at := "t0" }

/-! # Theorems -/

theorem mapFind_mapSet_self {α : Type} (m : List (String × α)) (k : String) (v : α) :
    mapFind (mapSet m k v) k = some v := by
  induction m with
  | nil => simp [mapSet, mapFind]
  | cons hd tl ih =>
      obtain ⟨k', v'⟩ := hd
      by_cases h : k' = k
      · simp [mapSet, h, mapFind]
      · simp [mapSet, h, mapFind, ih]

theorem mapFind_mapSet_ne {α : Type} (m : List (String × α)) (k k' : String) (v : α)
    (h : k ≠ k') : mapFind (mapSet m k v) k' = mapFind m k' := by
  induction m with
  | nil => simp [mapSet, mapFind, h]
  | cons hd tl ih =>
      obtain ⟨k0, v0⟩ := hd
      by_cases h0 : k0 = k
      · subst h0
        simp [mapSet, mapFind, h]
      · simp only [mapSet, if_neg h0]
        by_cases h1 : k0 = k'
        · simp [mapFind, h1]
        · simp [mapFind, h1, ih]

/-- Every value stored in `mapSet m k v` is either `v` or a value of `m`. -/
theorem mapSet_forall {α : Type} {P : α → Prop} {m : List (String × α)}
    (hm : ∀ e ∈ m, P e.2) {k : String} {v : α} (hv : P v) :
    ∀ e ∈ mapSet m k v, P e.2 := by
  induction m with
  | nil =>
      intro e he
      simp only [mapSet, List.mem_singleton] at he
      subst he; exact hv
  | cons hd tl ih =>
      intro e he
      obtain ⟨k0, v0⟩ := hd
      by_cases h0 : k0 = k
      · simp only [mapSet, if_pos h0, List.mem_cons] at he
        rcases he with he | he
        · subst he; exact hv
        · exact hm e (List.mem_cons_of_mem _ he)
      · simp only [mapSet, if_neg h0, List.mem_cons] at he
        rcases he with he | he
        · subst he; exact hm _ (List.mem_cons_self _ _)
        · exact ih (fun e he => hm e (List.mem_cons_of_mem _ he)) e he

theorem mapFind_mem {α : Type} {m : List (String × α)} {k : String} {v : α}
    (h : mapFind m k = some v) : (k, v) ∈ m := by
  induction m with
  | nil => simp [mapFind] at h
  | cons hd tl ih =>
      obtain ⟨k0, v0⟩ := hd
      by_cases h0 : k0 = k
      · subst h0
        have hv : v0 = v := by simpa [mapFind] using h
        subst hv; exact List.mem_cons_self _ _
      · simp only [mapFind, if_neg h0] at h
        exact List.mem_cons_of_mem _ (ih h)


/-- C1: `Checkout` succeeds exactly when a payment with the given id
exists and is `Held`; on success the receipt copies the hold amount,
charges `round(hold_amount × rate)` as the service fee, totals
`hold + fee`, and the payment becomes `Released` with
`released_at = processed_at` and `refunded_at` cleared, so a second
`Checkout` on the same payment fails. -/
theorem checkout_correct (st : LedgerState) (fid pid method : String) (rate : ℚ)
    (t : String) (inv : Option String) :
    ((checkout st fid pid method rate t inv).1.isSome ↔
      ∃ p, mapFind st.payments pid = some p ∧ p.status = .held) ∧
    (∀ p, mapFind st.payments pid = some p → p.status = .held →
      ∃ r st', checkout st fid pid method rate t inv = (some r, st') ∧
        r.hold_amount_cents = p.amount_cents ∧
        r.service_fee_cents = roundHalfAway ((p.amount_cents : ℚ) * rate) ∧
        r.total_cents = r.hold_amount_cents + r.service_fee_cents ∧
        mapFind st'.payments pid =
          some { p with status := .released, released_at := some t,
                        refunded_at := none } ∧
        ∀ fid2 m2 r2 t2 i2, (checkout st' fid2 pid m2 r2 t2 i2).1 = none) := by
  constructor
  · cases hfind : mapFind st.payments pid with
    | none => simp [checkout, hfind]
    | some p =>
        by_cases hs : p.status = .held
        · simp [checkout, hfind, hs]
        · simp [checkout, hfind, hs]
  · intro p hfind hstat
    simp only [checkout, hfind]
    rw [if_neg (by simp [hstat])]
    refine ⟨_, _, rfl, rfl, rfl, rfl, ?_, ?_⟩
    · exact mapFind_mapSet_self st.payments pid _
    · intro fid2 m2 r2 t2 i2
      simp [checkout, mapFind_mapSet_self]

/-- Witness for C1 at Scenario A: a 500000-cent hold checked out at
rate 0.015 yields fee 7500 and total 507500 and leaves the payment
released. -/
theorem checkout_correct_witness :
    ∃ r st',
      checkout (createHold emptyLedger "hold_1" "job_1" "ms_1" "AUD" 500000 "ref" "").2
        "chk_1" "hold_1" "card" (15 / 1000) "2024-03-01T00:00:00Z" none = (some r, st') ∧
      r.hold_amount_cents = 500000 ∧ r.service_fee_cents = 7500 ∧
      r.total_cents = 507500 ∧
      (mapFind st'.payments "hold_1").map PaymentRecord.status = some .released := by
  obtain ⟨r, st', heq, h1, h2, h3, h4, h5⟩ :=
    (checkout_correct (createHold emptyLedger "hold_1" "job_1" "ms_1" "AUD" 500000 "ref" "").2
      "chk_1" "hold_1" "card" (15 / 1000) "2024-03-01T00:00:00Z" none).2
      { id := "hold_1", job_id := "job_1", milestone_id := "ms_1", currency := "AUD",
        amount_cents := 500000, reference := "ref", conveyancer_account_id := "",
        status := .held, released_at := none, refunded_at := none }
      (by decide) (by decide)
  have hfee : r.service_fee_cents = 7500 := by
    rw [h2]; norm_num [roundHalfAway]
  refine ⟨r, st', heq, h1, hfee, ?_, ?_⟩
  · rw [h3, h1, hfee]; decide
  · rw [h4]; rfl

/-- One ledger operation preserves the status/timestamp invariant. -/
theorem ledgerInv_step (st : LedgerState) (op : LedgerOp) (h : LedgerInv st) :
    LedgerInv (applyLedgerOp st op) := by
  cases op with
  | createHold fid j m c a r cid =>
      simp only [applyLedgerOp, createHold]
      intro e he
      refine mapSet_forall h ?_ e he
      exact ⟨(fun hs => nomatch hs), (fun hs => nomatch hs)⟩
  | release id t =>
      simp only [applyLedgerOp, release]
      cases hfind : mapFind st.payments id with
      | none => exact h
      | some p =>
          by_cases hs : p.status = .refunded
          · simp only [hfind, if_pos hs]; exact h
          · simp only [hfind, if_neg hs]
            intro e he
            refine mapSet_forall h ?_ e he
            exact ⟨(fun hs' => nomatch hs'), (fun _ => ⟨rfl, rfl⟩)⟩
  | refund id t =>
      simp only [applyLedgerOp, refund]
      cases hfind : mapFind st.payments id with
      | none => exact h
      | some p =>
          by_cases hs : p.status = .released
          · simp only [hfind, if_pos hs]; exact h
          · simp only [hfind, if_neg hs]
            intro e he
            refine mapSet_forall h ?_ e he
            exact ⟨(fun _ => ⟨rfl, rfl⟩), (fun hs' => nomatch hs')⟩
  | recordPayout fid pid an acn b r t =>
      simp only [applyLedgerOp, recordPayout]
      cases hfind : mapFind st.payments pid with
      | none => exact h
      | some p =>
          by_cases hs : p.status ≠ .released
          · simp only [hfind, if_pos hs]; exact h
          · simp only [hfind, if_neg hs]; exact h
  | checkout fid pid m rate t inv =>
      simp only [applyLedgerOp, checkout]
      cases hfind : mapFind st.payments pid with
      | none => exact h
      | some p =>
          by_cases hs : p.status ≠ .held
          · simp only [hfind, if_pos hs]; exact h
          · simp only [hfind, if_neg hs]
            intro e he
            refine mapSet_forall h ?_ e he
            exact ⟨(fun hs' => nomatch hs'), (fun _ => ⟨rfl, rfl⟩)⟩

theorem ledgerInv_foldl (ops : List LedgerOp) (st : LedgerState) (h : LedgerInv st) :
    LedgerInv (ops.foldl applyLedgerOp st) := by
  induction ops generalizing st with
  | nil => exact h
  | cons op rest ih => exact ih _ (ledgerInv_step st op h)

/-- C2: after any sequence of ledger operations starting from the empty
ledger, every payment record satisfies the invariant: `Refunded` has
`refunded_at` set and `released_at` unset, and `Released` has
`released_at` set and `refunded_at` unset. -/
theorem ledger_invariant_reachable (ops : List LedgerOp) :
    LedgerInv (ops.foldl applyLedgerOp emptyLedger) :=
  ledgerInv_foldl ops emptyLedger (by intro e he; cases he)

/-- C3: `Refund` on a payment currently `Released` always fails and
leaves the whole ledger (hence the record and its timestamps)
unchanged; symmetrically `Release` on a `Refunded` payment always
fails with no change. -/
theorem invalid_transition_guards :
    (∀ st : LedgerState, ∀ id t : String, ∀ p : PaymentRecord,
       mapFind st.payments id = some p → p.status = .released →
       refund st id t = (none, st)) ∧
    (∀ st : LedgerState, ∀ id t : String, ∀ p : PaymentRecord,
       mapFind st.payments id = some p → p.status = .refunded →
       release st id t = (none, st)) := by
  constructor
  · intro st id t p hfind hs
    simp [refund, hfind, hs]
  · intro st id t p hfind hs
    simp [release, hfind, hs]

/-- Witness for C3 (Scenario B): refunding a released payment fails
with the ledger unchanged, and releasing a refunded payment fails with
the ledger unchanged. -/
theorem invalid_transition_guards_witness :
    refund (ledgerWith "p1" (samplePayment "p1" .released (some "t0") none)) "p1" "t1" =
      (none, ledgerWith "p1" (samplePayment "p1" .released (some "t0") none)) ∧
    release (ledgerWith "p2" (samplePayment "p2" .refunded none (some "t0"))) "p2" "t1" =
      (none, ledgerWith "p2" (samplePayment "p2" .refunded none (some "t0"))) := by
  constructor
  · exact invalid_transition_guards.1 _ "p1" "t1"
      (samplePayment "p1" .released (some "t0") none) (by decide) (by decide)
  · exact invalid_transition_guards.2 _ "p2" "t1"
      (samplePayment "p2" .refunded none (some "t0")) (by decide) (by decide)

/-- C4 counterexample: the result of `Release` does not distinguish an
unknown payment id from a status-guard violation — both give `none`
(and the HTTP handler maps both to the same 409 `invalid_transition`),
shown at the concrete id `"p1"` against the empty ledger and a ledger
holding a refunded `"p1"`. -/
theorem release_signal_not_distinct : ¬ ReleaseResultDistinguishes := by
  intro h
  exact h emptyLedger (ledgerWith "p1" (samplePayment "p1" .refunded none (some "t0")))
    "p1" "t1" "t2" (samplePayment "p1" .refunded none (some "t0"))
    (by decide) (by decide) (by decide) (by decide)

/-- C4 amended: only the checkout endpoint distinguishes an unknown
payment (404 `payment_not_found`) from a wrong-state payment (409
`hold_not_available`); the release, refund and payout paths produce one
and the same failure signal for both causes, so their callers cannot
tell them apart. -/
theorem error_signalling_amended :
    (∀ st : LedgerState, ∀ pid : String, mapFind st.payments pid = none →
       checkoutPrecheck st pid = (404, some "payment_not_found")) ∧
    (∀ st : LedgerState, ∀ pid : String, ∀ p : PaymentRecord,
       mapFind st.payments pid = some p → p.status ≠ .held →
       checkoutPrecheck st pid = (409, some "hold_not_available")) ∧
    (∀ st : LedgerState, ∀ pid t : String, mapFind st.payments pid = none →
       releaseHandler st pid t = (409, some "invalid_transition", st)) ∧
    (∀ st : LedgerState, ∀ pid t : String, ∀ p : PaymentRecord,
       mapFind st.payments pid = some p → p.status = .refunded →
       releaseHandler st pid t = (409, some "invalid_transition", st)) ∧
    (∀ st : LedgerState, ∀ pid t : String, mapFind st.payments pid = none →
       refundHandler st pid t = (409, some "invalid_transition", st)) ∧
    (∀ st : LedgerState, ∀ pid t : String, ∀ p : PaymentRecord,
       mapFind st.payments pid = some p → p.status = .released →
       refundHandler st pid t = (409, some "invalid_transition", st)) ∧
    (∀ st : LedgerState, ∀ fid pid an acn bsb ref t : String,
       mapFind st.payments pid = none →
       payoutHandler st fid pid an acn bsb ref t =
         (409, some "payout_not_available", st)) ∧
    (∀ st : LedgerState, ∀ fid pid an acn bsb ref t : String, ∀ p : PaymentRecord,
       mapFind st.payments pid = some p → p.status ≠ .released →
       payoutHandler st fid pid an acn bsb ref t =
         (409, some "payout_not_available", st)) := by
  refine ⟨?_, ?_, ?_, ?_, ?_, ?_, ?_, ?_⟩
  · intro st pid h; simp [checkoutPrecheck, h]
  · intro st pid p h hs; simp [checkoutPrecheck, h, hs]
  · intro st pid t h; simp [releaseHandler, release, h]
  · intro st pid t p h hs; simp [releaseHandler, release, h, hs]
  · intro st pid t h; simp [refundHandler, refund, h]
  · intro st pid t p h hs; simp [refundHandler, refund, h, hs]
  · intro st fid pid an acn bsb ref t h; simp [payoutHandler, recordPayout, h]
  · intro st fid pid an acn bsb ref t p h hs; simp [payoutHandler, recordPayout, h, hs]

/-- Witness for the amended C4, instantiating every branch at concrete
ledgers: an unknown id and a wrong-state payment produce distinct
checkout signals but identical release, refund and payout signals. -/
theorem error_signalling_amended_witness :
    checkoutPrecheck emptyLedger "p1" = (404, some "payment_not_found") ∧
    checkoutPrecheck (ledgerWith "p1" (samplePayment "p1" .refunded none (some "t0")))
      "p1" = (409, some "hold_not_available") ∧
    releaseHandler emptyLedger "p1" "t" = (409, some "invalid_transition", emptyLedger) ∧
    releaseHandler (ledgerWith "p1" (samplePayment "p1" .refunded none (some "t0")))
      "p1" "t" =
      (409, some "invalid_transition",
       ledgerWith "p1" (samplePayment "p1" .refunded none (some "t0"))) ∧
    refundHandler emptyLedger "p1" "t" = (409, some "invalid_transition", emptyLedger) ∧
    refundHandler (ledgerWith "p1" (samplePayment "p1" .released (some "t0") none))
      "p1" "t" =
      (409, some "invalid_transition",
       ledgerWith "p1" (samplePayment "p1" .released (some "t0") none)) ∧
    payoutHandler emptyLedger "po_1" "p1" "Acme" "123" "000-000" "ref" "t" =
      (409, some "payout_not_available", emptyLedger) ∧
    payoutHandler (ledgerWith "p1" (samplePayment "p1" .held none none))
      "po_1" "p1" "Acme" "123" "000-000" "ref" "t" =
      (409, some "payout_not_available",
       ledgerWith "p1" (samplePayment "p1" .held none none)) := by
  refine ⟨?_, ?_, ?_, ?_, ?_, ?_, ?_, ?_⟩
  · exact error_signalling_amended.1 emptyLedger "p1" (by decide)
  · exact error_signalling_amended.2.1 _ "p1"
      (samplePayment "p1" .refunded none (some "t0")) (by decide) (by decide)
  · exact error_signalling_amended.2.2.1 emptyLedger "p1" "t" (by decide)
  · exact error_signalling_amended.2.2.2.1 _ "p1" "t"
      (samplePayment "p1" .refunded none (some "t0")) (by decide) (by decide)
  · exact error_signalling_amended.2.2.2.2.1 emptyLedger "p1" "t" (by decide)
  · exact error_signalling_amended.2.2.2.2.2.1 _ "p1" "t"
      (samplePayment "p1" .released (some "t0") none) (by decide) (by decide)
  · exact error_signalling_amended.2.2.2.2.2.2.1 emptyLedger "po_1" "p1" "Acme" "123"
      "000-000" "ref" "t" (by decide)
  · exact error_signalling_amended.2.2.2.2.2.2.2 _ "po_1" "p1" "Acme" "123"
      "000-000" "ref" "t" (samplePayment "p1" .held none none) (by decide) (by decide)

theorem foldl_add_eq_sum {α : Type} (f : α → Int) (l : List α) (c : Int) :
    l.foldl (fun acc x => acc + f x) c = c + (l.map f).sum := by
  induction l generalizing c with
  | nil => simp
  | cons x xs ih => simp [ih, add_assoc]

/-- C5: every invoice built by `CreateInvoice` has
`subtotal = Σ line amounts`, `tax = Σ per-line trunc(amount × rate)`
(truncation toward zero applied per line, not to the subtotal), and
`total = subtotal + tax`. -/
theorem invoice_totals (st : InvoiceState)
    (fid jid recipient issued_at due_at : String) (lines : List InvoiceLine)
    (_hne : lines ≠ []) :
    ((createInvoice st fid jid recipient issued_at due_at lines).1).subtotal_cents =
      (lines.map (fun l => l.amount_cents)).sum ∧
    ((createInvoice st fid jid recipient issued_at due_at lines).1).tax_cents =
      (lines.map (fun l => truncToZero ((l.amount_cents : ℚ) * l.tax_rate))).sum ∧
    ((createInvoice st fid jid recipient issued_at due_at lines).1).total_cents =
      ((createInvoice st fid jid recipient issued_at due_at lines).1).subtotal_cents +
      ((createInvoice st fid jid recipient issued_at due_at lines).1).tax_cents := by
  refine ⟨?_, ?_, rfl⟩
  · show lines.foldl (fun acc l => acc + l.amount_cents) 0 = _
    rw [foldl_add_eq_sum (fun l => l.amount_cents) lines 0, zero_add]
  · show lines.foldl (fun acc l => acc + truncToZero ((l.amount_cents : ℚ) * l.tax_rate)) 0 = _
    rw [foldl_add_eq_sum (fun l => truncToZero ((l.amount_cents : ℚ) * l.tax_rate)) lines 0,
      zero_add]

/-- Witness for C5 at Scenario E: the single line `{"Fee", 10000, 0.10}`
gives subtotal 10000, tax 1000, total 11000. -/
theorem invoice_totals_witness :
    (10000 : Int) = (([⟨"Fee", 10000, 1 / 10⟩] : List InvoiceLine).map
        (fun l => l.amount_cents)).sum ∧
    ((createInvoice ⟨[]⟩ "inv_1" "job_1" "client" "2024-01-01" "2024-01-15"
        [⟨"Fee", 10000, 1 / 10⟩]).1).subtotal_cents = 10000 ∧
    ((createInvoice ⟨[]⟩ "inv_1" "job_1" "client" "2024-01-01" "2024-01-15"
        [⟨"Fee", 10000, 1 / 10⟩]).1).tax_cents = 1000 ∧
    ((createInvoice ⟨[]⟩ "inv_1" "job_1" "client" "2024-01-01" "2024-01-15"
        [⟨"Fee", 10000, 1 / 10⟩]).1).total_cents = 11000 := by
  obtain ⟨h1, h2, h3⟩ := invoice_totals ⟨[]⟩ "inv_1" "job_1" "client" "2024-01-01"
    "2024-01-15" [⟨"Fee", 10000, 1 / 10⟩] (by simp)
  have hline : (([⟨"Fee", 10000, 1 / 10⟩] : List InvoiceLine).map
      (fun l => l.amount_cents)).sum = 10000 := by simp
  have htax : (([⟨"Fee", 10000, 1 / 10⟩] : List InvoiceLine).map
      (fun l => truncToZero ((l.amount_cents : ℚ) * l.tax_rate))).sum = 1000 := by
    have hq : ((10000 : Int) : ℚ) * (1 / 10) = (1000 : ℚ) := by norm_num
    simp only [List.map, List.sum_cons, List.sum_nil, add_zero]
    rw [show ((⟨"Fee", 10000, 1 / 10⟩ : InvoiceLine).amount_cents : ℚ) *
        (⟨"Fee", 10000, 1 / 10⟩ : InvoiceLine).tax_rate = (1000 : ℚ) from hq]
    rw [truncToZero]
    norm_num
  refine ⟨hline.symm, ?_, ?_, ?_⟩
  · rw [h1, hline]
  · rw [h2, htax]
  · rw [h3, h1, h2, hline, htax]; decide

/-- The tier fold over the fixed three-tier table in closed form. -/
theorem resolveTierForCount_eq (count : Int) :
    resolveTierForCount count =
      if 8 ≤ count then tierPreferred
      else if 3 ≤ count then tierTrusted
      else tierLaunch := by
  simp only [resolveTierForCount, loyaltyTiers, List.foldl]
  rw [show tierLaunch.threshold = 0 from rfl, show tierTrusted.threshold = 3 from rfl,
    show tierPreferred.threshold = 8 from rfl]
  rw [ite_self]

/-- C6: the selected loyalty rate is monotonically non-increasing in
the completed-job count over the fixed table
`0 ↦ 0.018, 3 ↦ 0.015, 8 ↦ 0.012`: more completions never raise the
fee rate. -/
theorem loyalty_rate_monotone (count1 count2 : Int) (h : count1 ≤ count2) :
    (resolveTierForCount count2).rate ≤ (resolveTierForCount count1).rate := by
  rw [resolveTierForCount_eq, resolveTierForCount_eq]
  split_ifs <;>
    first
      | omega
      | norm_num [tierLaunch, tierTrusted, tierPreferred]

/-- Witness for C6 at counts 2 ≤ 5. -/
theorem loyalty_rate_monotone_witness :
    (2 : Int) ≤ 5 ∧ (resolveTierForCount 5).rate ≤ (resolveTierForCount 2).rate :=
  ⟨by decide, loyalty_rate_monotone 2 5 (by decide)⟩

/-- C7: `RecordCheckout` with a job id already credited to the
conveyancer changes neither the distinct-completed-job count nor the
resolved rate (the whole engine state is unchanged). -/
theorem recordCheckout_idempotent (st : LoyaltyState) (cid jid : String)
    (h : jid ∈ (mapFind st.completed_jobs cid).getD []) :
    completedCount (recordCheckout st cid jid) cid = completedCount st cid ∧
    resolveRate (recordCheckout st cid jid) cid = resolveRate st cid := by
  have hst : recordCheckout st cid jid = st := by
    unfold recordCheckout
    by_cases hc : cid = ""
    · simp [hc]
    · simp [hc, h]
  rw [hst]
  exact ⟨rfl, rfl⟩

/-- Witness for C7 at Scenario C: an unknown conveyancer resolves rate
0.018; after three distinct job checkouts the rate is 0.015; a fourth
checkout with a duplicate job id changes neither count nor rate. -/
theorem recordCheckout_idempotent_witness :
    resolveRate emptyLoyalty "c1" = 18 / 1000 ∧
    resolveRate
      (recordCheckout (recordCheckout (recordCheckout emptyLoyalty "c1" "j1") "c1" "j2")
        "c1" "j3") "c1" = 15 / 1000 ∧
    "j1" ∈ (mapFind
      (recordCheckout (recordCheckout (recordCheckout emptyLoyalty "c1" "j1") "c1" "j2")
        "c1" "j3").completed_jobs "c1").getD [] ∧
    completedCount
      (recordCheckout
        (recordCheckout (recordCheckout (recordCheckout emptyLoyalty "c1" "j1") "c1" "j2")
          "c1" "j3") "c1" "j1") "c1" =
      completedCount
        (recordCheckout (recordCheckout (recordCheckout emptyLoyalty "c1" "j1") "c1" "j2")
          "c1" "j3") "c1" ∧
    resolveRate
      (recordCheckout
        (recordCheckout (recordCheckout (recordCheckout emptyLoyalty "c1" "j1") "c1" "j2")
          "c1" "j3") "c1" "j1") "c1" =
      resolveRate
        (recordCheckout (recordCheckout (recordCheckout emptyLoyalty "c1" "j1") "c1" "j2")
          "c1" "j3") "c1" := by
  have hc0 : completedCount emptyLoyalty "c1" = 0 := by decide
  have hc3 : completedCount
      (recordCheckout (recordCheckout (recordCheckout emptyLoyalty "c1" "j1") "c1" "j2")
        "c1" "j3") "c1" = 3 := by decide
  have hmem : "j1" ∈ (mapFind
      (recordCheckout (recordCheckout (recordCheckout emptyLoyalty "c1" "j1") "c1" "j2")
        "c1" "j3").completed_jobs "c1").getD [] := by decide
  obtain ⟨hcount, hrate⟩ := recordCheckout_idempotent
    (recordCheckout (recordCheckout (recordCheckout emptyLoyalty "c1" "j1") "c1" "j2")
      "c1" "j3") "c1" "j1" hmem
  refine ⟨?_, ?_, hmem, hcount, hrate⟩
  · rw [resolveRate, if_neg (by decide), hc0, resolveTierForCount_eq]
    norm_num [tierLaunch]
  · rw [resolveRate, if_neg (by decide), hc3, resolveTierForCount_eq]
    norm_num [tierTrusted]

/-- C8: for an existing job, `AddMessage` returns the stored message
and appends a `contact_coordinates:<id>` flag exactly when the body
matches the contact-coordinate patterns and the job's contact policy is
not yet unlocked, and an `off_platform_hint:<id>` flag exactly when the
body matches the off-platform vocabulary, regardless of unlock state;
the two detectors are independent. -/
theorem addMessage_flags (st : JobStore) (jid sender body mid now : String)
    (j : Job) (h : mapFind st.jobs jid = some j) :
    (addMessage st jid sender body mid now).1 =
      some { id := mid, sender := sender, body := body, sent_at := now } ∧
    ∃ j', mapFind ((addMessage st jid sender body mid now).2).jobs jid = some j' ∧
      j'.compliance_flags =
        (j.compliance_flags ++
          (if containsContactCoordinates body && !j.contact_policy.unlocked then
            ["contact_coordinates:" ++ mid] else [])) ++
        (if containsOffPlatformHint body then ["off_platform_hint:" ++ mid] else []) := by
  constructor
  · simp [addMessage, h]
  · simp only [addMessage, h]
    refine ⟨_, mapFind_mapSet_self _ _ _, ?_⟩
    by_cases hcc : (containsContactCoordinates body && !j.contact_policy.unlocked) = true
    · by_cases hop : containsOffPlatformHint body = true
      · simp [hcc, hop]
      · simp [hcc, hop]
    · by_cases hop : containsOffPlatformHint body = true
      · simp [hcc, hop]
      · simp [hcc, hop]

/-- Witness for C8 at Scenario D: the body
`"Call me on 0412 345 678"` on a job with contact not yet unlocked
produces both flags, in order. -/
theorem addMessage_flags_witness :
    ∃ j', mapFind ((addMessage ⟨[("job_1", sampleJob "job_1" lockedPolicy)]⟩
        "job_1" "buyer" "Call me on 0412 345 678" "msg_7" "t1").2).jobs "job_1" =
      some j' ∧
      j'.compliance_flags = ["contact_coordinates:msg_7", "off_platform_hint:msg_7"] := by
  obtain ⟨hmsg, j', hfind, hflags⟩ :=
    addMessage_flags ⟨[("job_1", sampleJob "job_1" lockedPolicy)]⟩ "job_1" "buyer"
      "Call me on 0412 345 678" "msg_7" "t1" (sampleJob "job_1" lockedPolicy) (by decide)
  refine ⟨j', hfind, ?_⟩
  rw [hflags]
  decide

theorem unlocked_after_set_true (st : JobStore) (k jid : String) (j job' : Job)
    (h : mapFind st.jobs jid = some j) (hj : j.contact_policy.unlocked = true)
    (hj' : job'.contact_policy.unlocked = true) :
    ∃ j'', mapFind (mapSet st.jobs k job') jid = some j'' ∧
      j''.contact_policy.unlocked = true := by
  by_cases hk : k = jid
  · subst hk
    exact ⟨job', mapFind_mapSet_self _ _ _, hj'⟩
  · refine ⟨j, ?_, hj⟩
    rw [mapFind_mapSet_ne st.jobs k jid job' hk]
    exact h

theorem unlocked_after_set (st : JobStore) (k jid : String) (j job job' : Job)
    (h : mapFind st.jobs jid = some j) (hj : j.contact_policy.unlocked = true)
    (hfound : mapFind st.jobs k = some job)
    (hpol : job'.contact_policy.unlocked = job.contact_policy.unlocked) :
    ∃ j'', mapFind (mapSet st.jobs k job') jid = some j'' ∧
      j''.contact_policy.unlocked = true := by
  by_cases hk : k = jid
  · subst hk
    rw [h] at hfound
    obtain rfl := Option.some.inj hfound
    exact ⟨job', mapFind_mapSet_self _ _ _, by rw [hpol]; exact hj⟩
  · refine ⟨j, ?_, hj⟩
    rw [mapFind_mapSet_ne st.jobs k jid job' hk]
    exact h

/-- C9: `UnlockContact` is idempotent and one-way: the first call on an
existing locked job stamps `unlocked`, `unlocked_at` and
`unlocked_by_role`; a second call is a no-op leaving the whole store
(hence those stamps) unchanged; and, with collision-free `create` ids,
no store operation ever takes `unlocked` back to `false` for an
existing job. -/
theorem unlockContact_one_way :
    (∀ st : JobStore, ∀ jid role now : String, ∀ j : Job,
       mapFind st.jobs jid = some j → j.contact_policy.unlocked = false →
       ∃ j', mapFind ((unlockContact st jid role now).2).jobs jid = some j' ∧
         j'.contact_policy.unlocked = true ∧
         j'.contact_policy.unlocked_at = some now ∧
         j'.contact_policy.unlocked_by_role = role) ∧
    (∀ st : JobStore, ∀ jid role1 now1 role2 now2 : String,
       (mapFind st.jobs jid).isSome = true →
       (unlockContact (unlockContact st jid role1 now1).2 jid role2 now2).2 =
         (unlockContact st jid role1 now1).2) ∧
    (∀ st : JobStore, ∀ op : JobOp, ∀ jid : String, ∀ j : Job,
       FreshCreate st op → mapFind st.jobs jid = some j →
       j.contact_policy.unlocked = true →
       ∃ j', mapFind (applyJobOp st op).jobs jid = some j' ∧
         j'.contact_policy.unlocked = true) := by
  refine ⟨?_, ?_, ?_⟩
  · intro st jid role now j h hlocked
    simp only [unlockContact, h, hlocked]
    exact ⟨_, mapFind_mapSet_self _ _ _, rfl, rfl, rfl⟩
  · intro st jid role1 now1 role2 now2 hsome
    cases hfind : mapFind st.jobs jid with
    | none => rw [hfind] at hsome; cases hsome
    | some j =>
        by_cases hu : j.contact_policy.unlocked = true
        · simp [unlockContact, hfind, hu]
        · simp only [unlockContact, hfind, if_neg hu]
          simp [unlockContact, mapFind_mapSet_self]
  · intro st op jid j hfresh h hj
    cases op with
    | create fid t s cid bn sn esc ms now =>
        simp only [applyJobOp, createJob]
        have hne : fid ≠ jid := by
          intro he
          rw [he] at hfresh
          simp only [FreshCreate] at hfresh
          rw [hfresh] at h
          cases h
        refine ⟨j, ?_, hj⟩
        rw [mapFind_mapSet_ne st.jobs fid jid _ hne]
        exact h
    | addMilestone k fid t d a now =>
        simp only [applyJobOp, addMilestone]
        cases hfound : mapFind st.jobs k with
        | none => exact ⟨j, h, hj⟩
        | some job => exact unlocked_after_set st k jid j job _ h hj hfound rfl
    | updateMilestone k mid sst d esc now =>
        simp only [applyJobOp, updateMilestone]
        cases hfound : mapFind st.jobs k with
        | none => exact ⟨j, h, hj⟩
        | some job =>
            cases hms : updateMilestoneList mid sst d esc now job.milestones with
            | none =>
                refine ⟨j, ?_, hj⟩
                simp only [hms]
                exact h
            | some ms =>
                simp only [hms]
                exact unlocked_after_set st k jid j job _ h hj hfound rfl
    | addMessage k sender body fid now =>
        simp only [applyJobOp, addMessage]
        cases hfound : mapFind st.jobs k with
        | none => exact ⟨j, h, hj⟩
        | some job => exact unlocked_after_set st k jid j job _ h hj hfound rfl
    | addDocument k fid n rs ct now =>
        simp only [applyJobOp, addDocument]
        cases hfound : mapFind st.jobs k with
        | none => exact ⟨j, h, hj⟩
        | some job => exact unlocked_after_set st k jid j job _ h hj hfound rfl
    | markDocumentSigned k did sf now =>
        simp only [applyJobOp, markDocumentSigned]
        cases hfound : mapFind st.jobs k with
        | none => exact ⟨j, h, hj⟩
        | some job =>
            cases hds : markSignedList did sf job.documents with
            | none =>
                refine ⟨j, ?_, hj⟩
                simp only [hds]
                exact h
            | some docs =>
                simp only [hds]
                exact unlocked_after_set st k jid j job _ h hj hfound rfl
    | createDispute k fid t d now =>
        simp only [applyJobOp, createDispute]
        cases hfound : mapFind st.jobs k with
        | none => exact ⟨j, h, hj⟩
        | some job => exact unlocked_after_set st k jid j job _ h hj hfound rfl
    | updateDisputeStatus k did sst e now =>
        simp only [applyJobOp, updateDisputeStatus]
        cases hfound : mapFind st.jobs k with
        | none => exact ⟨j, h, hj⟩
        | some job =>
            cases hds : updateDisputeList did sst e job.disputes with
            | none =>
                refine ⟨j, ?_, hj⟩
                simp only [hds]
                exact h
            | some ds =>
                simp only [hds]
                exact unlocked_after_set st k jid j job _ h hj hfound rfl
    | completeJob k summary cid tok now =>
        simp only [applyJobOp, completeJob]
        cases hfound : mapFind st.jobs k with
        | none => exact ⟨j, h, hj⟩
        | some job => exact unlocked_after_set st k jid j job _ h hj hfound rfl
    | unlockContact k role now =>
        simp only [applyJobOp, unlockContact]
        cases hfound : mapFind st.jobs k with
        | none => exact ⟨j, h, hj⟩
        | some job =>
            by_cases hu : job.contact_policy.unlocked = true
            · simp only [hu, if_pos]
              exact ⟨j, h, hj⟩
            · simp only [if_neg hu]
              exact unlocked_after_set_true st k jid j _ h hj rfl
    | createCallSession k fid t cb pa tok now =>
        simp only [applyJobOp, createCallSession]
        cases hfound : mapFind st.jobs k with
        | none => exact ⟨j, h, hj⟩
        | some job => exact unlocked_after_set st k jid j job _ h hj hfound rfl
    | applyTemplate k ts now =>
        simp only [applyJobOp, applyTemplate]
        cases hfound : mapFind st.jobs k with
        | none => exact ⟨j, h, hj⟩
        | some job => exact unlocked_after_set st k jid j job _ h hj hfound rfl

/-- Witness for C9 at a concrete store: the first unlock stamps the
policy, the second unlock is a no-op, and a message operation on
another concrete store leaves `unlocked` true. -/
theorem unlockContact_one_way_witness :
    (∃ j', mapFind ((unlockContact ⟨[("job_1", sampleJob "job_1" lockedPolicy)]⟩
        "job_1" "finance_admin" "t1").2).jobs "job_1" = some j' ∧
      j'.contact_policy.unlocked = true ∧
      j'.contact_policy.unlocked_at = some "t1" ∧
      j'.contact_policy.unlocked_by_role = "finance_admin") ∧
    (unlockContact (unlockContact ⟨[("job_1", sampleJob "job_1" lockedPolicy)]⟩
        "job_1" "finance_admin" "t1").2 "job_1" "admin" "t2").2 =
      (unlockContact ⟨[("job_1", sampleJob "job_1" lockedPolicy)]⟩
        "job_1" "finance_admin" "t1").2 ∧
    (∃ j', mapFind (applyJobOp
        ⟨[("job_1", sampleJob "job_1"
            { lockedPolicy with unlocked := true, unlocked_at := some "t1",
                                unlocked_by_role := "finance_admin" })]⟩
        (.addMessage "job_1" "buyer" "hello" "msg_1" "t2")).jobs "job_1" = some j' ∧
      j'.contact_policy.unlocked = true) := by
  refine ⟨?_, ?_, ?_⟩
  · exact unlockContact_one_way.1 ⟨[("job_1", sampleJob "job_1" lockedPolicy)]⟩
      "job_1" "finance_admin" "t1" (sampleJob "job_1" lockedPolicy) (by decide) (by decide)
  · exact unlockContact_one_way.2.1 ⟨[("job_1", sampleJob "job_1" lockedPolicy)]⟩
      "job_1" "finance_admin" "t1" "admin" "t2" (by decide)
  · exact unlockContact_one_way.2.2
      ⟨[("job_1", sampleJob "job_1"
          { lockedPolicy with unlocked := true, unlocked_at := some "t1",
                              unlocked_by_role := "finance_admin" })]⟩
      (.addMessage "job_1" "buyer" "hello" "msg_1" "t2") "job_1"
      (sampleJob "job_1"
        { lockedPolicy with unlocked := true, unlocked_at := some "t1",
                            unlocked_by_role := "finance_admin" })
      trivial (by decide) (by decide)

/-- C10 counterexample: on the digit-free non-empty input `"abc"`,
`MaskPhone` returns the fixed `"••••"`, while the claim's case split
(empty ↦ empty, one-to-three digits ↦ `"••••"`, otherwise bullets plus
last three digits) predicts the empty string. -/
theorem maskPhone_claim_counterexample : maskPhone "abc" ≠ maskPhoneClaimed "abc" := by
  decide

/-- C10 amended: `MaskPhone` returns the empty string for empty input,
the fixed digit-free `"••••"` for every non-empty input with at most
three digits (zero included), and otherwise one bullet per digit except
the last three followed by exactly the input's last three digits — so
it never reveals more than the last three digits. -/
theorem maskPhone_amended_correct : ∀ value : String,
    maskPhone value = maskPhoneAmended value := by
  intro v
  by_cases hv : v = ""
  · subst hv; rfl
  · simp only [maskPhone, maskPhoneAmended, if_neg hv]
    by_cases hlen : (v.data.filter Char.isDigit).length < 4
    · rw [if_pos hlen, if_pos (show (v.data.filter Char.isDigit).length ≤ 3 by omega)]
    · rw [if_neg hlen,
        if_neg (show ¬(v.data.filter Char.isDigit).length ≤ 3 by omega)]

end ConveyMarket
